import Mathlib

/-!
Verification of the MarketMode solar-fleet monitoring pipeline.

This file gives a shallow embedding, over `ℚ` and `List`, of the
cumulative-to-incremental energy derivation and sync pipeline that is
duplicated across the three call sites of the repository:

* `api/sync-weekly-report.js` (the cron handler),
* `src/pages/AllGraph.jsx` (yearly view), and
* the weekly-report component (`WeeklyPerformanceReport.jsx`).

JavaScript numbers are modelled as rationals, JS strings as `String`,
missing/nullable values as `Option`, and `Array.prototype.sort` as a stable
comparison sort (`List.insertionSort`).  `Number(x.toFixed(2))` is modelled
by `round2` below (the ECMAScript `toFixed` rounding: nearest, ties away
from zero towards `+∞`, i.e. `⌊100·x + 1/2⌋ / 100`).
-/

/-- JS `Number(x.toFixed(2))`: round to 2 decimal places, ties upward. -/
def round2 (q : ℚ) : ℚ := (⌊100 * q + 1/2⌋ : ℚ) / 100

/-- JS `Number(x.toFixed(3))`: round to 3 decimal places, ties upward. -/
def round3 (q : ℚ) : ℚ := (⌊1000 * q + 1/2⌋ : ℚ) / 1000

/-- Code-unit comparison of chars, as used by JS string relational operators. -/
def charLeB (a b : Char) : Bool := a.toNat ≤ b.toNat

/-- Lexicographic code-unit order on char lists (JS `<=` on strings). -/
def listLexLe : List Char → List Char → Bool
  | [], _ => true
  | _ :: _, [] => false
  | a :: as, b :: bs => if a = b then listLexLe as bs else charLeB a b

/-- JS `s1 <= s2` on strings: lexicographic code-unit comparison. -/
def strLe (a b : String) : Bool := listLexLe a.toList b.toList

/-- Helper for `containsList`: does `l` start with `sub`? -/
def startsWithList : List Char → List Char → Bool
  | _, [] => true
  | [], _ :: _ => false
  | a :: as, b :: bs => a == b && startsWithList as bs

/-- Does `l` contain `sub` as a contiguous sublist? -/
def containsList : List Char → List Char → Bool
  | [], sub => sub.isEmpty
  | a :: as, sub => startsWithList (a :: as) sub || containsList as sub

/-- JS `s.includes(sub)`. -/
def jsIncludes (s sub : String) : Bool := containsList s.toList sub.toList

/-- JS `s.toLowerCase()` (ASCII case folding suffices for the data here). -/
def jsToLower (s : String) : String := String.mk (s.toList.map Char.toLower)

/-- JS `String.prototype.trim()`: strip whitespace from both ends. -/
def jsTrim (s : String) : String :=
  String.mk ((s.toList.dropWhile Char.isWhitespace).reverse.dropWhile
    Char.isWhitespace).reverse

/-- JS `s.slice(0, n)`. -/
def jsSlice0 (n : Nat) (s : String) : String := String.mk (s.toList.take n)

/-- Value of a digit character. -/
def digitVal (c : Char) : Nat := c.toNat - 48

/-- Natural number denoted by a digit string. -/
def digitsToNat (cs : List Char) : Nat := cs.foldl (fun n c => 10 * n + digitVal c) 0

/-- Parse an unsigned decimal literal `digits[.digits]` as the longest valid
leading slice of `cs`; `none` when no digit is present (JS `NaN`). -/
def parseUnsignedDec (cs : List Char) : Option ℚ :=
  let intDigits := cs.takeWhile Char.isDigit
  let rest := cs.drop intDigits.length
  match rest with
  | '.' :: rest2 =>
    let fracDigits := rest2.takeWhile Char.isDigit
    if intDigits.isEmpty && fracDigits.isEmpty then none
    else some ((digitsToNat intDigits : ℚ)
      + (digitsToNat fracDigits : ℚ) / (10 ^ fracDigits.length : ℕ))
  | _ => if intDigits.isEmpty then none else some (digitsToNat intDigits : ℚ)

/-- JS `parseFloat` on an already-trimmed string, for plain decimal literals
(the roster capacity column); exponent forms are not modelled.  `none` stands
for `NaN`. -/
def jsParseFloat (s : String) : Option ℚ :=
  match s.toList with
  | '-' :: cs => (parseUnsignedDec cs).map (fun q => -q)
  | '+' :: cs => parseUnsignedDec cs
  | cs => parseUnsignedDec cs

/-- JS `parseFloat(s) || 1`: the `||` fallback fires on `NaN` and also on a
parsed value of `0` (both are falsy). -/
def parseFloatOrOne (s : String) : ℚ :=
  match jsParseFloat s with
  | none => 1
  | some v => if v = 0 then 1 else v

/-! Roster loader.

`sync-weekly-report.js` lines 79–99 (cron) and the identical
`fetchInverterList` in the weekly-report component: rows are read
positionally, the header row (index 0) is skipped, and a row is accepted only
when both trimmed `inverterId` and trimmed `beneficiaryName` are non-empty.
A roster row is modelled as its list of cell strings (`rowValues` in the
source, after the `c`/`v` shape normalisation). -/

structure Inverter where
  serialNo : String
  inverterId : String
  beneficiaryName : String
  capacity : ℚ
deriving DecidableEq

/-- One row of the cron roster loop body (`rows.forEach` in
`sync-weekly-report.js`): `none` when the row is dropped. -/
def cronProcessRow (index : Nat) (row : List String) : Option Inverter :=
  let serialNo := jsTrim (row.getD 0 "")
  let inverterId := jsTrim (row.getD 1 "")
  let beneficiaryName := jsTrim (row.getD 2 "")
  let capacity := parseFloatOrOne (jsTrim (row.getD 3 ""))
  if inverterId ≠ "" ∧ beneficiaryName ≠ "" then
    some { serialNo := if serialNo = "" then "S" ++ toString index else serialNo,
           inverterId := inverterId, beneficiaryName := beneficiaryName,
           capacity := capacity }
  else none

/-- The cron roster loader over all rows (header row at index 0 skipped). -/
def cronLoadInverters (rows : List (List String)) : List Inverter :=
  rows.enum.filterMap (fun p => if p.1 = 0 then none else cronProcessRow p.1 p.2)

/-- Roster record shape produced by `AllGraph.jsx` (no capacity column). -/
structure AGInverter where
  serialNo : String
  inverterId : String
  beneficiaryName : String
deriving DecidableEq

/-- One row of the `AllGraph.jsx` `fetchInverterDataFromSheet` loop (lines
116–138): only `inverterId` is required, no capacity is read, and a blank
serial number becomes the bare row index string. -/
def allGraphProcessRow (index : Nat) (row : List String) : Option AGInverter :=
  let serialNo := jsTrim (row.getD 0 "")
  let inverterId := jsTrim (row.getD 1 "")
  let beneficiaryName := jsTrim (row.getD 2 "")
  if inverterId ≠ "" then
    some { serialNo := if serialNo = "" then toString index else serialNo,
           inverterId := inverterId, beneficiaryName := beneficiaryName }
  else none

/-- The `AllGraph.jsx` roster loader over all rows. -/
def allGraphLoadInverters (rows : List (List String)) : List AGInverter :=
  rows.enum.filterMap (fun p => if p.1 = 0 then none else allGraphProcessRow p.1 p.2)

/-! Telemetry delta engine (daily pipeline).

`sync-weekly-report.js` lines 205–224 and the identical walk in
`fetchPerformanceData` (weekly-report component, lines 756–775): the sorted
cumulative series is walked with `previousValue`; index 0 only seeds
`previousValue`, every later index emits a `DeltaPoint` and updates
`previousValue` unconditionally.  A vendor item is modelled as its
`time_stamp` plus the numeric value already extracted from its value field
(`parseFloat(item[valueKey]) || 0` in the source); the raw value is in Wh and
is divided by 1000 on the walk. -/

structure RawPoint where
  time_stamp : String
  value : ℚ
deriving DecidableEq

structure DeltaPoint where
  date : String
  dailyKwh : ℚ
  cumulativeKwh : ℚ
deriving DecidableEq

/-- The `else` arm of the walk: every point emits
`max(0, current - previous)` and then sets `previous := current`. -/
def deltaWalk (previousValue : ℚ) : List RawPoint → List DeltaPoint
  | [] => []
  | item :: rest =>
    let currentKwh := item.value / 1000
    { date := item.time_stamp,
      dailyKwh := max 0 (currentKwh - previousValue),
      cumulativeKwh := currentKwh } :: deltaWalk currentKwh rest

/-- The `dailyData` list built from a sorted series: the first point only seeds
`previousValue` (`if (idx === 0) previousValue = currentKwh`), the rest walk. -/
def dailyData : List RawPoint → List DeltaPoint
  | [] => []
  | item :: rest => deltaWalk (item.value / 1000) rest

/-- Window filter of the cron handler (lines 227–232): keep points whose
date prefix `item.date.slice(0, 8)` lies in the inclusive
`[dateRangeStartStr, dateRangeEndStr]` window under string comparison. -/
def inWindow (dateRangeStartStr dateRangeEndStr : String) (item : DeltaPoint) : Bool :=
  let itemDate := jsSlice0 8 item.date
  strLe dateRangeStartStr itemDate && strLe itemDate dateRangeEndStr

/-- The `filteredDailyData` list of the cron handler. -/
def filteredDailyData (sortedData : List RawPoint)
    (dateRangeStartStr dateRangeEndStr : String) : List DeltaPoint :=
  (dailyData sortedData).filter (inWindow dateRangeStartStr dateRangeEndStr)

/-- Cron `totalKwh = filteredDailyData.reduce((sum, day) => sum + day.dailyKwh, 0)`. -/
def totalKwhOf (sortedData : List RawPoint)
    (dateRangeStartStr dateRangeEndStr : String) : ℚ :=
  (filteredDailyData sortedData dateRangeStartStr dateRangeEndStr).foldl
    (fun sum day => sum + day.dailyKwh) 0

/-- Cron `lifetimeGeneration`: `dailyData[dailyData.length - 1].cumulativeKwh` when
`dailyData` is non-empty, otherwise the initial `0`. -/
def lifetimeGenerationOf (sortedData : List RawPoint) : ℚ :=
  match (dailyData sortedData).getLast? with
  | some d => d.cumulativeKwh
  | none => 0

/-- Per-inverter report row of the cron handler (lines 242–257). -/
structure CronRecord where
  serialNo : String
  inverterId : String
  beneficiaryName : String
  capacity : ℚ
  totalKwh : ℚ
  avgDailyKwh : ℚ
  specYield : ℚ
  daysInRange : ℚ
  lifetimeGeneration : ℚ
deriving DecidableEq

/-- The record built by the cron handler from an inverter and its sorted
series: `daysInRange = 8` is a constant, `avgDailyKwh = totalKwh / 8`,
`specYield = capacity > 0 ? avgDailyKwh / capacity : 0`, and the stored
`totalKwh`/`avgDailyKwh`/`specYield` go through `toFixed(2)`/`toFixed(3)`. -/
def cronPerformanceRecord (inverter : Inverter) (sortedData : List RawPoint)
    (dateRangeStartStr dateRangeEndStr : String) : CronRecord :=
  let totalKwh := totalKwhOf sortedData dateRangeStartStr dateRangeEndStr
  let daysInRange : ℚ := 8
  let avgDailyKwh := totalKwh / daysInRange
  let specYield := if 0 < inverter.capacity then avgDailyKwh / inverter.capacity else 0
  { serialNo := inverter.serialNo,
    inverterId := inverter.inverterId,
    beneficiaryName := inverter.beneficiaryName,
    capacity := inverter.capacity,
    totalKwh := round2 totalKwh,
    avgDailyKwh := round2 avgDailyKwh,
    specYield := round3 specYield,
    daysInRange := daysInRange,
    lifetimeGeneration := lifetimeGenerationOf sortedData }

/-! Fetch-window construction.

The cron handler (lines 122–128) and `fetchPerformanceData` (lines 627–631)
shift the vendor fetch start one day back with
`apiStart.setDate(apiStart.getDate() - 1)`; `handleSyncAllSolar` in
`AllGraph.jsx` (lines 244–255) sends `start_time: yearRange.startYear`
without any shift.  JS `Date` day arithmetic is modelled on a
year/month/day triple with the Gregorian rollover rule. -/

def isLeapYear (y : Nat) : Bool := (y % 4 == 0 && y % 100 != 0) || y % 400 == 0

def daysInMonth (y : Nat) (m : Nat) : Nat :=
  if m = 2 then (if isLeapYear y then 29 else 28)
  else if m = 4 ∨ m = 6 ∨ m = 9 ∨ m = 11 then 30
  else 31

structure YMD where
  year : Nat
  month : Nat
  day : Nat
deriving DecidableEq

/-- JS `d.setDate(d.getDate() - 1)`: JS `Date` rolls a day-of-month of 0 back to
the last day of the previous month (and December of the previous year from
January). -/
def subOneDay (d : YMD) : YMD :=
  if 1 < d.day then ⟨d.year, d.month, d.day - 1⟩
  else if 1 < d.month then ⟨d.year, d.month - 1, daysInMonth d.year (d.month - 1)⟩
  else ⟨d.year - 1, 12, 31⟩

/-- Spec-side definition (refinement witness): the calendar day immediately
after `d`.  "One period before the desired window start" means the successor
of the fetch start is the desired start. -/
def nextCalendarDay (d : YMD) : YMD :=
  if d.day < daysInMonth d.year d.month then ⟨d.year, d.month, d.day + 1⟩
  else if d.month < 12 then ⟨d.year, d.month + 1, 1⟩
  else ⟨d.year + 1, 1, 1⟩

/-- A well-formed Gregorian date (year ≥ 2 so the predecessor exists). -/
def ValidYMD (d : YMD) : Prop :=
  2 ≤ d.year ∧ 1 ≤ d.month ∧ d.month ≤ 12 ∧ 1 ≤ d.day ∧
    d.day ≤ daysInMonth d.year d.month

/-- JS `String(n).padStart(2, '0')`. -/
def pad2 (n : Nat) : String := if n < 10 then "0" ++ toString n else toString n

/-- Format `formatDateForAPI`: `YYYYMMDD`. -/
def formatDateForAPI (d : YMD) : String :=
  toString d.year ++ pad2 d.month ++ pad2 d.day

/-- The cron / weekly-report fetch window: `(apiStartDate, apiEndDate)` with
`apiStart` one `setDate(-1)` before `start`. -/
def dailyApiWindow (startDate endDate : YMD) : String × String :=
  (formatDateForAPI (subOneDay startDate), formatDateForAPI endDate)

structure YearRange where
  startYear : Nat
  endYear : Nat
deriving DecidableEq

/-- The `AllGraph.jsx` yearly fetch window:
`(yearRange.startYear.toString(), yearRange.endYear.toString())` — sent
as-is, with no one-period shift. -/
def allGraphYearlyWindow (yearRange : YearRange) : String × String :=
  (toString yearRange.startYear, toString yearRange.endYear)

/-! Yearly delta derivation: `formatYearlyData`, `AllGraph.jsx` 296–329.

Unlike the daily walk, `formatYearlyData` starts with
`previousCumulativeKwh = 0` and pushes an entry for **every** sorted point
(including the first) whose year lies in `[startYear, endYear]`.  The vendor
`time_stamp` is a year string that the source immediately `parseInt`s (both
for sorting and for the range test); it is modelled as the year number, and
the emitted `year` string field is dropped (it equals `toString yearNum`). -/

structure YPoint where
  time_stamp : Nat
  value : ℚ
deriving DecidableEq

structure YearlyEntry where
  yearNum : Nat
  yearlyKwh : ℚ
  cumulativeKwh : ℚ
deriving DecidableEq

/-- The `sortedData.forEach` body of `formatYearlyData`. -/
def yearlyWalk (range : YearRange) (previousCumulativeKwh : ℚ) :
    List YPoint → List YearlyEntry
  | [] => []
  | item :: rest =>
    let cumulativeKwh := item.value / 1000
    let safeYearlyKwh := max 0 (cumulativeKwh - previousCumulativeKwh)
    let tail := yearlyWalk range cumulativeKwh rest
    if range.startYear ≤ item.time_stamp ∧ item.time_stamp ≤ range.endYear then
      { yearNum := item.time_stamp, yearlyKwh := safeYearlyKwh,
        cumulativeKwh := cumulativeKwh } :: tail
    else tail

/-- Function `formatYearlyData`: sort ascending by timestamp, walk from a previous
value of `0`, then sort the result by `yearNum`. -/
def formatYearlyData (dataArray : List YPoint) (range : YearRange) :
    List YearlyEntry :=
  if dataArray.isEmpty then []
  else
    let sortedData := dataArray.insertionSort
      (fun a b => a.time_stamp ≤ b.time_stamp)
    (yearlyWalk range 0 sortedData).insertionSort
      (fun a b => a.yearNum ≤ b.yearNum)

/-! Device-key resolution.

Vendor response shape for `getPVInverterRealTimeData`: a `result_code`, an
optional `result_msg`, and an optional `device_point_list` whose entries are
nullable objects each holding a nullable `device_point.ps_key`.  The JS
truthiness test `p?.device_point?.ps_key` is false for a missing entry, a
missing key, and the empty string. -/

structure DeviceEntry where
  ps_key : Option String
deriving DecidableEq

structure DeviceResponse where
  result_code : String
  result_msg : Option String
  device_point_list : Option (List (Option DeviceEntry))
deriving DecidableEq

/-- Truthiness of `p?.device_point?.ps_key`. -/
def entryHasKey (p : Option DeviceEntry) : Bool :=
  match p with
  | some dp => match dp.ps_key with
    | some k => k ≠ ""
    | none => false
  | none => false

/-- Lookup `result_data?.device_point_list?.find(p => p?.device_point?.ps_key)`
followed by `point?.device_point?.ps_key`. -/
def findPsKey (resp : DeviceResponse) : Option String :=
  match resp.device_point_list with
  | none => none
  | some entries =>
    match entries.find? entryHasKey with
    | some (some dp) => dp.ps_key
    | _ => none

/-- The cron handler's per-inverter step at the device-key stage (lines
163–168): `if (!psKey) return null;` — the inverter yields no record at all
and is later removed by `batchResults.filter(Boolean)`.  On a resolved key
the handler goes on to build the performance record from the energy data. -/
def cronDeviceStep (inverter : Inverter) (resp : DeviceResponse)
    (sortedData : List RawPoint) (dateRangeStartStr dateRangeEndStr : String) :
    Option CronRecord :=
  match findPsKey resp with
  | none => none
  | some _ =>
    some (cronPerformanceRecord inverter sortedData dateRangeStartStr dateRangeEndStr)

/-- Collection `performanceData.push(...batchResults.filter(Boolean))`. -/
def cronCollectBatch (batchResults : List (Option CronRecord)) : List CronRecord :=
  batchResults.filterMap id

/-- Per-inverter row of the weekly-report component (`fetchPerformanceData`);
`error` is `null` on success. -/
structure UIRecord where
  id : Nat
  serialNo : String
  inverterId : String
  beneficiaryName : String
  capacity : ℚ
  totalKwh : ℚ
  avgDailyKwh : ℚ
  specYield : ℚ
  daysInRange : ℚ
  lifetimeGeneration : ℚ
  error : Option String
deriving DecidableEq

/-- The zeroed error record returned by `fetchPerformanceData` when the
device response resolves no ps_key (lines 687–698):
`error: 'No PS Key found'` and all metrics zero. -/
def uiNoKeyRecord (inverter : Inverter) (daysInRange : ℚ) : UIRecord :=
  { id := 0, serialNo := inverter.serialNo, inverterId := inverter.inverterId,
    beneficiaryName := inverter.beneficiaryName, capacity := inverter.capacity,
    totalKwh := 0, avgDailyKwh := 0, specYield := 0,
    daysInRange := daysInRange, lifetimeGeneration := 0,
    error := some "No PS Key found" }

/-- The zeroed error record for an invalid device response (lines 700–709). -/
def uiBadDeviceRecord (inverter : Inverter) (msg : Option String)
    (daysInRange : ℚ) : UIRecord :=
  { uiNoKeyRecord inverter daysInRange with
    error := some (match msg with | some m => if m = "" then "Invalid device response" else m
                                  | none => "Invalid device response") }

/-- Outcome of the device-key stage in `fetchPerformanceData` (lines
680–710): either a ps_key to continue with, or an early-returned record. -/
inductive UIDeviceStep where
  | proceed (psKey : String)
  | answer (r : UIRecord)
deriving DecidableEq

/-- Handling in `fetchPerformanceData` of the device response: on
`result_code === "1"` with a `device_point_list`, search for a truthy
`ps_key`; a miss produces the `'No PS Key found'` record instead of throwing
or dropping the inverter. -/
def uiDeviceStep (inverter : Inverter) (resp : DeviceResponse)
    (daysInRange : ℚ) : UIDeviceStep :=
  if resp.result_code = "1" ∧ resp.device_point_list ≠ none then
    match findPsKey resp with
    | some k => .proceed k
    | none => .answer (uiNoKeyRecord inverter daysInRange)
  else .answer (uiBadDeviceRecord inverter resp.result_msg daysInRange)

/-! Login retry decisions.

`handleAutoLogin` in the weekly-report component (lines 436–535).  The
retry decisions are pure functions of the current `retryCount` and the
message; the recursive call passes `retryCount + 1`. -/

/-- Busy-server branch (line 507):
`result.result_msg?.toLowerCase().includes('busy') && retryCount < 2`. -/
def busyRetry (result_msg : Option String) (retryCount : Nat) : Bool :=
  (match result_msg with
   | some m => jsIncludes (jsToLower m) "busy"
   | none => false) && decide (retryCount < 2)

/-- Catch-block network branch exactly as written (line 523):
`retryCount < 2 && err.message.includes('network') ||
err.message.includes('Failed to fetch')` — in JS, `&&` binds tighter than
`||`, so the right disjunct is **not** guarded by `retryCount < 2`. -/
def wprNetRetry (retryCount : Nat) (msg : String) : Bool :=
  (decide (retryCount < 2) && jsIncludes msg "network") ||
    jsIncludes msg "Failed to fetch"

/-- The toast shown on that branch displays
`Network error, retrying... (${retryCount + 1}/3)`: the displayed attempt
counter out of a stated total of 3. -/
def wprRetryToastCount (retryCount : Nat) : Nat × Nat := (retryCount + 1, 3)

/-! Sync writer: `handleSyncCSVFormat`, weekly-report component 896–951.

The function first rejects an empty `performanceData`, then keeps only
records without `error`, and throws *before* the `fetch` POST when nothing
survives.  The observable outcome is modelled as: whether a POST was issued,
the serialized payload, and the failure message (if any). -/

structure SyncRow where
  serialNo : String
  inverterId : String
  beneficiaryName : String
  capacity : ℚ
  totalKwh : ℚ
  avgDailyKwh : ℚ
  specYield : ℚ
  daysInRange : ℚ
  lifetimeGeneration : ℚ
deriving DecidableEq

/-- One pushed element of `syncData` (lines 916–926); `fallbackDays` is
`calculateDaysInRange()`, used when `item.daysInRange` is falsy (0). -/
def toSyncRow (fallbackDays : ℚ) (item : UIRecord) : SyncRow :=
  { serialNo := if item.serialNo = "" then "S" ++ toString item.id else item.serialNo,
    inverterId := jsTrim item.inverterId,
    beneficiaryName := jsTrim item.beneficiaryName,
    capacity := item.capacity,
    totalKwh := item.totalKwh,
    avgDailyKwh := item.avgDailyKwh,
    specYield := item.specYield,
    daysInRange := if item.daysInRange = 0 then fallbackDays else item.daysInRange,
    lifetimeGeneration := item.lifetimeGeneration }

structure SyncAttempt where
  posted : Bool
  payload : List SyncRow
  failMsg : Option String
deriving DecidableEq

/-- Function `handleSyncCSVFormat` up to the POST: empty input returns early; records
with `error` are excluded; zero survivors throw
`"No valid data to sync (all records have errors)"` before any HTTP POST;
otherwise the POST is issued carrying `syncData`. -/
def handleSyncCSVFormat (performanceData : List UIRecord) (fallbackDays : ℚ) :
    SyncAttempt :=
  if performanceData.isEmpty then
    { posted := false, payload := [],
      failMsg := some "No performance data available to sync" }
  else
    let syncData := (performanceData.filter (fun item => item.error = none)).map
      (toSyncRow fallbackDays)
    if syncData.isEmpty then
      { posted := false, payload := [],
        failMsg := some "No valid data to sync (all records have errors)" }
    else { posted := true, payload := syncData, failMsg := none }

/-! Summary statistics: weekly-report component 1127–1171.

`filteredData` removes error records, applies the search filter, and sorts
by the selected column; `summaryStats` further keeps `totalKwh > 0` and
returns `null` when nothing qualifies. -/

/-- The search predicate of `filteredData` (lines 1130–1137). -/
def searchMatch (term : String) (item : UIRecord) : Bool :=
  jsIncludes (jsToLower item.beneficiaryName) term ||
  jsIncludes (jsToLower item.inverterId) term ||
  jsIncludes (jsToLower item.serialNo) term

/-- Memo `filteredData`: drop error records, apply the (lower-cased) search term,
sort by `sortKey` in the chosen direction. -/
def filteredData (performanceData : List UIRecord) (searchTerm : String)
    (sortKey : UIRecord → ℚ) (sortOrderDesc : Bool) : List UIRecord :=
  let data := performanceData.filter (fun item => item.error = none)
  let data := if searchTerm ≠ "" then
      data.filter (searchMatch (jsToLower searchTerm)) else data
  data.insertionSort (fun a b =>
    if sortOrderDesc then sortKey b ≤ sortKey a else sortKey a ≤ sortKey b)

structure SummaryStats where
  totalKwh : ℚ
  avgDailyKwh : ℚ
  avgSpecYield : ℚ
  totalCapacity : ℚ
  totalInverters : Nat
  bestPerformer : Option UIRecord
  worstPerformer : Option UIRecord
deriving DecidableEq

/-- Memo `summaryStats`: `null` on an empty `filteredData` or when no record has
`totalKwh > 0`; otherwise sums/means over `validData`, with best/worst
performer taken from the ends of a by-yield descending sort. -/
def summaryStats (fd : List UIRecord) : Option SummaryStats :=
  if fd.isEmpty then none
  else
    let validData := fd.filter (fun item => 0 < item.totalKwh)
    if validData.isEmpty then none
    else
      let totalKwh := validData.foldl (fun sum item => sum + item.totalKwh) 0
      let avgDailyKwh :=
        validData.foldl (fun sum item => sum + item.avgDailyKwh) 0 / (validData.length : ℚ)
      let avgSpecYield :=
        validData.foldl (fun sum item => sum + item.specYield) 0 / (validData.length : ℚ)
      let totalCapacity := validData.foldl (fun sum item => sum + item.capacity) 0
      let sortedByYield := validData.insertionSort (fun a b => b.specYield ≤ a.specYield)
      some { totalKwh := round2 totalKwh,
             avgDailyKwh := round2 avgDailyKwh,
             avgSpecYield := round3 avgSpecYield,
             totalCapacity := round2 totalCapacity,
             totalInverters := validData.length,
             bestPerformer := sortedByYield.head?,
             worstPerformer := sortedByYield.getLast? }

/-- The UI (`fetchPerformanceData`) average and specific yield (lines
805–806): `daysInRange > 0 ? totalKwh / daysInRange : 0` and
`capacity > 0 ? avgDailyKwh / capacity : 0`. -/
def uiAvgDailyKwh (totalKwh daysInRange : ℚ) : ℚ :=
  if 0 < daysInRange then totalKwh / daysInRange else 0

def specYieldOf (capacity avgDailyKwh : ℚ) : ℚ :=
  if 0 < capacity then avgDailyKwh / capacity else 0

/-! Helper lemmas shared by several claims. -/

/-- Folding `(s, x) ↦ s + f x` from `a` computes `a` plus the mapped sum
(the semantics of the `reduce((sum, v) => sum + v, 0)` idiom). -/
theorem foldl_add_map_sum {α : Type} (f : α → ℚ) (l : List α) (a : ℚ) :
    l.foldl (fun sum x => sum + f x) a = a + (l.map f).sum := by
  induction l generalizing a with
  | nil => simp
  | cons x xs ih => simp [ih, add_assoc]

/-- A `deltaWalk` has one delta per walked point. -/
theorem deltaWalk_length (previousValue : ℚ) (l : List RawPoint) :
    (deltaWalk previousValue l).length = l.length := by
  induction l generalizing previousValue with
  | nil => rfl
  | cons x xs ih => simp [deltaWalk, ih]

/-- Element `i` of a `deltaWalk` seeded by point `q`, phrased over the padded
list `q :: rest`: the delta compares consecutive cumulative readings and the
stored cumulative is the current reading. -/
theorem deltaWalk_getD (q : RawPoint) (rest : List RawPoint) (i : Nat)
    (h : i < rest.length) :
    (deltaWalk (q.value / 1000) rest).getD i ⟨"", 0, 0⟩ =
      { date := (rest.getD i ⟨"", 0⟩).time_stamp,
        dailyKwh := max 0 ((rest.getD i ⟨"", 0⟩).value / 1000
          - ((q :: rest).getD i ⟨"", 0⟩).value / 1000),
        cumulativeKwh := (rest.getD i ⟨"", 0⟩).value / 1000 } := by
  induction rest generalizing q i with
  | nil => simp at h
  | cons r rest2 ih =>
    cases i with
    | zero => simp [deltaWalk]
    | succ i =>
      have h2 : i < rest2.length := by simpa using h
      simpa [deltaWalk] using ih r i h2

/-- The last cumulative value of a non-empty `deltaWalk` is the last walked
point's reading divided by 1000. -/
theorem deltaWalk_getLast_cum (previousValue : ℚ) (rest : List RawPoint)
    (h : rest ≠ []) :
    ((deltaWalk previousValue rest).getLast?.map DeltaPoint.cumulativeKwh)
      = some ((rest.getLastD ⟨"", 0⟩).value / 1000) := by
  induction rest generalizing previousValue with
  | nil => exact absurd rfl h
  | cons r rest2 ih =>
    cases rest2 with
    | nil => simp [deltaWalk]
    | cons r2 rest3 =>
      have := ih (r.value / 1000) (by simp)
      simpa [deltaWalk, List.getLast?_cons_cons, List.getLastD_cons] using this

/-- Every month has at least one day. -/
theorem daysInMonth_pos (y m : Nat) : 1 ≤ daysInMonth y m := by
  unfold daysInMonth
  split_ifs <;> omega

/-- Inverse lemma: the calendar successor of `subOneDay d` is `d` itself,
for any well-formed date. -/
theorem nextCalendarDay_subOneDay (d : YMD) (h : ValidYMD d) :
    nextCalendarDay (subOneDay d) = d := by
  obtain ⟨y, m, dd⟩ := d
  obtain ⟨hy, hm1, hm12, hd1, hdm⟩ := h
  simp only at hy hm1 hm12 hd1 hdm
  by_cases hday : 1 < dd
  · have e1 : subOneDay ⟨y, m, dd⟩ = ⟨y, m, dd - 1⟩ := by
      simp [subOneDay, hday]
    have hlt : dd - 1 < daysInMonth y m := by omega
    rw [e1]
    simp only [nextCalendarDay, hlt, if_pos]
    congr 1
    omega
  · have hdd : dd = 1 := by omega
    subst hdd
    by_cases hmon : 1 < m
    · have e1 : subOneDay ⟨y, m, 1⟩ = ⟨y, m - 1, daysInMonth y (m - 1)⟩ := by
        simp [subOneDay, hmon]
      rw [e1]
      have h1 : ¬ (daysInMonth y (m - 1) < daysInMonth y (m - 1)) := lt_irrefl _
      have h2 : m - 1 < 12 := by omega
      simp only [nextCalendarDay, h1, if_false, h2, if_pos, if_neg]
      congr 1
      omega
    · have hmm : m = 1 := by omega
      subst hmm
      have e1 : subOneDay ⟨y, 1, 1⟩ = ⟨y - 1, 12, 31⟩ := by
        simp [subOneDay]
      rw [e1]
      have h31 : daysInMonth (y - 1) 12 = 31 := by
        simp [daysInMonth]
      have h1 : ¬ ((31 : Nat) < daysInMonth (y - 1) 12) := by rw [h31]; omega
      have h2 : ¬ ((12 : Nat) < 12) := by omega
      simp only [nextCalendarDay, h1, h2, if_false, if_neg]
      congr 1
      omega

/-- The calendar predecessor is never the date itself. -/
theorem subOneDay_ne (d : YMD) (h : ValidYMD d) : subOneDay d ≠ d := by
  obtain ⟨y, m, dd⟩ := d
  obtain ⟨hy, hm1, hm12, hd1, hdm⟩ := h
  simp only at hy hm1 hm12 hd1 hdm
  unfold subOneDay
  split_ifs with h1 h2 <;> simp only [YMD.mk.injEq, ne_eq, not_and] <;> intro hyy <;> omega

/-- When every point's year is inside the range, the `yearlyWalk` emits one
entry per point. -/
theorem yearlyWalk_length_all (range : YearRange) (l : List YPoint)
    (previousCumulativeKwh : ℚ)
    (h : ∀ p ∈ l, range.startYear ≤ p.time_stamp ∧ p.time_stamp ≤ range.endYear) :
    (yearlyWalk range previousCumulativeKwh l).length = l.length := by
  induction l generalizing previousCumulativeKwh with
  | nil => rfl
  | cons p rest ih =>
    have hp := h p (by simp)
    have hrest : ∀ q ∈ rest, range.startYear ≤ q.time_stamp ∧ q.time_stamp ≤ range.endYear :=
      fun q hq => h q (by simp [hq])
    simp [yearlyWalk, hp.1, hp.2, ih _ hrest]

/-- C1, counterexample.  The claim says a sorted cumulative series
`[c0, …, cn]` yields exactly `n` delta points, the first point seeding
`previousValue` without emitting.  `formatYearlyData` (`AllGraph.jsx`
296–329) violates this: the one-point series `[{time_stamp: 2020,
value: 5000}]` (`n = 0`) with range 2011–2025 yields **one** entry, whose
`yearlyKwh` is the full cumulative reading 5 kWh diffed against the initial
`previousCumulativeKwh = 0`. -/
theorem c1_counterexample :
    (formatYearlyData [⟨2020, 5000⟩] ⟨2011, 2025⟩).length = 1 ∧
    formatYearlyData [⟨2020, 5000⟩] ⟨2011, 2025⟩ =
      [{ yearNum := 2020, yearlyKwh := 5, cumulativeKwh := 5 }] := by
  have h : formatYearlyData [⟨2020, 5000⟩] ⟨2011, 2025⟩ =
      [{ yearNum := 2020, yearlyKwh := 5, cumulativeKwh := 5 }] := by
    simp only [formatYearlyData, List.isEmpty_cons, List.insertionSort,
      List.orderedInsert, yearlyWalk]
    norm_num
  exact ⟨by rw [h]; rfl, h⟩

/-- C1, amended.  In the cron handler and the weekly-report component, a
sorted series of `n + 1` points yields exactly `n` delta points, the first
point only seeding `previousValue`, and the `i`-th delta equals
`max(0, c[i+1] - c[i])` with the stored cumulative (the updated previous
value) equal to `c[i+1]` regardless of the delta's sign.  In
`formatYearlyData` (`AllGraph.jsx`), however, every in-range sorted point —
including the first, whose delta is taken against `0` — emits an entry, so
an all-in-range series of `n + 1` points yields `n + 1` entries. -/
theorem c1_amended :
    (∀ sortedData : List RawPoint,
      (dailyData sortedData).length = sortedData.length - 1) ∧
    (∀ (sortedData : List RawPoint) (i : Nat), i + 1 < sortedData.length →
      (dailyData sortedData).getD i ⟨"", 0, 0⟩ =
        { date := (sortedData.getD (i + 1) ⟨"", 0⟩).time_stamp,
          dailyKwh := max 0 ((sortedData.getD (i + 1) ⟨"", 0⟩).value / 1000
            - (sortedData.getD i ⟨"", 0⟩).value / 1000),
          cumulativeKwh := (sortedData.getD (i + 1) ⟨"", 0⟩).value / 1000 }) ∧
    (∀ (dataArray : List YPoint) (range : YearRange),
      (∀ p ∈ dataArray,
        range.startYear ≤ p.time_stamp ∧ p.time_stamp ≤ range.endYear) →
      (formatYearlyData dataArray range).length = dataArray.length) := by
  refine ⟨?_, ?_, ?_⟩
  · intro sortedData
    cases sortedData with
    | nil => rfl
    | cons q rest => simp [dailyData, deltaWalk_length]
  · intro sortedData i h
    cases sortedData with
    | nil => simp at h
    | cons q rest =>
      have hi : i < rest.length := by simpa using h
      simpa [dailyData] using deltaWalk_getD q rest i hi
  · intro dataArray range h
    cases hda : dataArray with
    | nil => simp [formatYearlyData]
    | cons p rest =>
      subst hda
      have hne : ((p :: rest : List YPoint).isEmpty = true) = False := by simp
      simp only [formatYearlyData, hne, if_false, List.length_insertionSort]
      have hmem : ∀ q ∈ (p :: rest : List YPoint).insertionSort
          (fun a b => a.time_stamp ≤ b.time_stamp),
          range.startYear ≤ q.time_stamp ∧ q.time_stamp ≤ range.endYear := by
        intro q hq
        exact h q ((List.perm_insertionSort _ _).mem_iff.mp hq)
      rw [yearlyWalk_length_all range _ 0 hmem, List.length_insertionSort]

/-- C1, witness for the amended theorem at concrete inputs: a three-point
daily series yields delta `max(0, 5 - 0) = 5` at index 0, and an
all-in-range two-point yearly series yields two entries. -/
theorem c1_witness :
    (dailyData [⟨"20240101", 0⟩, ⟨"20240102", 5000⟩, ⟨"20240103", 12000⟩]).getD 0 ⟨"", 0, 0⟩ =
      { date := "20240102", dailyKwh := 5, cumulativeKwh := 5 } ∧
    (formatYearlyData [⟨2020, 5000⟩, ⟨2021, 12000⟩] ⟨2011, 2025⟩).length = 2 := by
  constructor
  · rw [c1_amended.2.1 [⟨"20240101", 0⟩, ⟨"20240102", 5000⟩, ⟨"20240103", 12000⟩] 0
      (by norm_num)]
    norm_num
  · rw [c1_amended.2.2 [⟨2020, 5000⟩, ⟨2021, 12000⟩] ⟨2011, 2025⟩
      (by intro p hp; fin_cases hp <;> norm_num)]
    rfl

/-- A non-empty list's `getLastD` does not depend on the default. -/
theorem getLastD_default_irrel {α : Type} (l : List α) (h : l ≠ []) (d1 d2 : α) :
    l.getLastD d1 = l.getLastD d2 := by
  cases hl : l.getLast? with
  | none => exact absurd (List.getLast?_eq_none_iff.mp hl) h
  | some a => simp [List.getLastD_eq_getLast?, hl]

/-- C2.  The reported `totalKwh` is the sum of `dailyKwh` over exactly the
delta points whose 8-character date prefix lies in the inclusive caller
window under string comparison; `lifetimeGeneration` is the cumulative value
of the last point of the full (unfiltered) sorted series — the last raw
reading divided by 1000 whenever the series has at least two points — and is
independent of the requested window. -/
theorem c2_total_and_lifetime :
    ∀ (sortedData : List RawPoint) (dateRangeStartStr dateRangeEndStr : String),
      (totalKwhOf sortedData dateRangeStartStr dateRangeEndStr =
        (((dailyData sortedData).filter (fun item =>
          strLe dateRangeStartStr (jsSlice0 8 item.date) &&
          strLe (jsSlice0 8 item.date) dateRangeEndStr)).map
            DeltaPoint.dailyKwh).sum) ∧
      (2 ≤ sortedData.length →
        lifetimeGenerationOf sortedData =
          (sortedData.getLastD ⟨"", 0⟩).value / 1000) ∧
      (∀ (inverter : Inverter) (s2 e2 : String),
        (cronPerformanceRecord inverter sortedData dateRangeStartStr dateRangeEndStr).lifetimeGeneration =
        (cronPerformanceRecord inverter sortedData s2 e2).lifetimeGeneration) := by
  intro sortedData s e
  refine ⟨?_, ?_, fun _ _ _ => rfl⟩
  · rw [totalKwhOf, foldl_add_map_sum]
    have hw : inWindow s e = fun item =>
        strLe s (jsSlice0 8 item.date) && strLe (jsSlice0 8 item.date) e := rfl
    rw [filteredDailyData, hw]
    ring
  · intro h
    cases sortedData with
    | nil => simp at h
    | cons q rest =>
      have hrest : rest ≠ [] := by
        cases rest with
        | nil => simp at h
        | cons a l => simp
      have hlast := deltaWalk_getLast_cum (q.value / 1000) rest hrest
      rw [lifetimeGenerationOf]
      cases hwalk : (deltaWalk (q.value / 1000) rest).getLast? with
      | none => rw [hwalk] at hlast; simp at hlast
      | some d =>
        rw [hwalk] at hlast
        simp at hlast
        have hd : d.cumulativeKwh = (rest.getLastD ⟨"", 0⟩).value / 1000 := by
          rw [List.getLastD_eq_getLast?]; exact hlast
        simp only [dailyData, hwalk, hd, List.getLastD_cons]
        rw [getLastD_default_irrel rest hrest q ⟨"", 0⟩]

/-- C2, witness: on the three-point series `0, 5000, 12000` Wh with window
`[20240102, 20240103]`, the total is `5 + 7 = 12` kWh and the lifetime
generation is the last cumulative reading, `12` kWh. -/
theorem c2_witness :
    totalKwhOf [⟨"20240101", 0⟩, ⟨"20240102", 5000⟩, ⟨"20240103", 12000⟩]
      "20240102" "20240103" = 12 ∧
    lifetimeGenerationOf [⟨"20240101", 0⟩, ⟨"20240102", 5000⟩, ⟨"20240103", 12000⟩] = 12 := by
  constructor
  · rw [(c2_total_and_lifetime [⟨"20240101", 0⟩, ⟨"20240102", 5000⟩, ⟨"20240103", 12000⟩]
      "20240102" "20240103").1]
    have h1 : strLe "20240102" (jsSlice0 8 "20240102") = true := by decide
    have h2 : strLe (jsSlice0 8 "20240102") "20240103" = true := by decide
    have h3 : strLe "20240102" (jsSlice0 8 "20240103") = true := by decide
    have h4 : strLe (jsSlice0 8 "20240103") "20240103" = true := by decide
    norm_num [dailyData, deltaWalk, List.filter, h1, h2, h3, h4]
  · rw [(c2_total_and_lifetime [⟨"20240101", 0⟩, ⟨"20240102", 5000⟩, ⟨"20240103", 12000⟩]
      "x" "y").2.1 (by norm_num)]
    norm_num [List.getLastD]

/-- C3, counterexample.  The claim says every pipeline run requests
telemetry starting one period before the desired window start.  The yearly
pipeline (`handleSyncAllSolar`, `AllGraph.jsx` lines 244–255) does not: for
the desired range 2016–2025 it sends `start_time` `"2016"` — the desired
start year itself, not the previous period `"2015"`. -/
theorem c3_counterexample :
    (allGraphYearlyWindow ⟨2016, 2025⟩).1 = "2016" ∧
    (allGraphYearlyWindow ⟨2016, 2025⟩).1 ≠ toString (2016 - 1) := by
  exact ⟨rfl, by decide⟩

/-- C3, amended.  The two daily call sites (cron handler lines 122–128,
`fetchPerformanceData` lines 627–631) do shift the fetch start one day back:
the start they send is the strict calendar predecessor of the desired start
(its calendar successor is the desired start again, across month and year
boundaries).  The yearly call site sends the desired start year itself, with
no one-period shift. -/
theorem c3_amended :
    (∀ d : YMD, ValidYMD d → nextCalendarDay (subOneDay d) = d ∧ subOneDay d ≠ d) ∧
    (∀ (startDate endDate : YMD),
      dailyApiWindow startDate endDate =
        (formatDateForAPI (subOneDay startDate), formatDateForAPI endDate)) ∧
    (∀ yearRange : YearRange,
      (allGraphYearlyWindow yearRange).1 = toString yearRange.startYear) := by
  refine ⟨fun d h => ⟨nextCalendarDay_subOneDay d h, subOneDay_ne d h⟩,
    fun _ _ => rfl, fun _ => rfl⟩

/-- C3, witness: Mar 1 2024 is valid; its fetch start is Feb 29 2024 (leap
year) and stepping that forward one calendar day restores Mar 1 2024. -/
theorem c3_witness :
    subOneDay ⟨2024, 3, 1⟩ = ⟨2024, 2, 29⟩ ∧
    nextCalendarDay (subOneDay ⟨2024, 3, 1⟩) = ⟨2024, 3, 1⟩ ∧
    subOneDay ⟨2024, 3, 1⟩ ≠ ⟨2024, 3, 1⟩ := by
  have h := c3_amended.1 ⟨2024, 3, 1⟩ (by constructor <;> decide)
  exact ⟨by decide, h.1, h.2⟩

/-- C4.  Specific yield: in the cron record, `specYield` is
`avgDailyKwh / capacity` (with `avgDailyKwh = totalKwh / 8`, rounded to 3
decimals for storage) when `capacity > 0`, and exactly `0` when
`capacity ≤ 0`; the shared UI formula `specYieldOf` likewise divides only
when the capacity is positive. -/
theorem c4_specific_yield :
    ∀ (inverter : Inverter) (sortedData : List RawPoint) (s e : String)
      (capacity avgDailyKwh : ℚ),
      (0 < inverter.capacity →
        (cronPerformanceRecord inverter sortedData s e).specYield =
          round3 ((totalKwhOf sortedData s e / 8) / inverter.capacity)) ∧
      (inverter.capacity ≤ 0 →
        (cronPerformanceRecord inverter sortedData s e).specYield = 0) ∧
      (0 < capacity → specYieldOf capacity avgDailyKwh = avgDailyKwh / capacity) ∧
      (capacity ≤ 0 → specYieldOf capacity avgDailyKwh = 0) := by
  intro inverter sortedData s e capacity avgDailyKwh
  refine ⟨fun h => ?_, fun h => ?_, fun h => ?_, fun h => ?_⟩
  · simp [cronPerformanceRecord, h]
  · have hn : ¬ 0 < inverter.capacity := not_lt.mpr h
    simp [cronPerformanceRecord, hn, round3]
    norm_num
  · simp [specYieldOf, h]
  · simp [specYieldOf, not_lt.mpr h]

/-- C4, witness: capacity 3 kW and the sample series give
`specYield = ((12 / 8) / 3) = 0.5`, and a capacity of `-2` gives exactly 0. -/
theorem c4_witness :
    (cronPerformanceRecord ⟨"49", "I1", "B", 3⟩
      [⟨"20240101", 0⟩, ⟨"20240102", 5000⟩, ⟨"20240103", 12000⟩]
      "20240102" "20240103").specYield = 1/2 ∧
    (cronPerformanceRecord ⟨"50", "I2", "B2", -2⟩
      [⟨"20240101", 0⟩, ⟨"20240102", 5000⟩, ⟨"20240103", 12000⟩]
      "20240102" "20240103").specYield = 0 := by
  constructor
  · rw [(c4_specific_yield ⟨"49", "I1", "B", 3⟩
      [⟨"20240101", 0⟩, ⟨"20240102", 5000⟩, ⟨"20240103", 12000⟩]
      "20240102" "20240103" 0 0).1 (by norm_num)]
    have h1 : strLe "20240102" (jsSlice0 8 "20240102") = true := by decide
    have h2 : strLe (jsSlice0 8 "20240102") "20240103" = true := by decide
    have h3 : strLe "20240102" (jsSlice0 8 "20240103") = true := by decide
    have h4 : strLe (jsSlice0 8 "20240103") "20240103" = true := by decide
    rw [totalKwhOf, foldl_add_map_sum]
    norm_num [filteredDailyData, dailyData, deltaWalk, inWindow, List.filter,
      h1, h2, h3, h4, round3]
  · rw [(c4_specific_yield ⟨"50", "I2", "B2", -2⟩
      [⟨"20240101", 0⟩, ⟨"20240102", 5000⟩, ⟨"20240103", 12000⟩]
      "20240102" "20240103" 0 0).2.1 (by norm_num)]

/-- C5, counterexample.  The claim describes a single positional loader that
requires both `inverterId` and `beneficiaryName`, defaults capacity to 1
only on blank or parse failure, and synthesizes `"S" + rowIndex`.  The
`AllGraph.jsx` loader accepts a row whose beneficiary is blank — producing a
record with an empty `beneficiaryName` and the bare row index `"1"` as
serial — and the cron loader maps a successfully parsed capacity of `"0"` to
`1` (the `|| 1` fallback also fires on the falsy parsed value `0`). -/
theorem c5_counterexample :
    allGraphLoadInverters [["sn", "id", "name"], ["", "I2492100573", ""]] =
      [{ serialNo := "1", inverterId := "I2492100573", beneficiaryName := "" }] ∧
    cronLoadInverters [["sn", "id", "name", "cap"], ["7", "I1", "BEN", "0"]] =
      [{ serialNo := "7", inverterId := "I1", beneficiaryName := "BEN", capacity := 1 }] := by
  constructor
  · decide
  · have t7 : jsTrim "7" = "7" := by decide
    have tI : jsTrim "I1" = "I1" := by decide
    have tB : jsTrim "BEN" = "BEN" := by decide
    have t0 : jsTrim "0" = "0" := by decide
    have hpf : jsParseFloat "0" = some ((0 : ℕ) : ℚ) := rfl
    have hp : parseFloatOrOne "0" = 1 := by
      simp only [parseFloatOrOne, hpf]
      norm_num
    have hrow : cronProcessRow 1 ["7", "I1", "BEN", "0"] =
        some { serialNo := "7", inverterId := "I1", beneficiaryName := "BEN",
               capacity := 1 } := by
      simp only [cronProcessRow, List.getD_cons_zero, List.getD_cons_succ,
        t7, tI, tB, t0, hp]
      rw [if_pos (by constructor <;> decide)]
      rw [if_neg (by decide)]
    simp [cronLoadInverters, List.enum, List.enumFrom, List.filterMap_cons, hrow]

/-- C5, amended.  The cron/weekly loader reads columns positionally, accepts
a row only when both trimmed `inverterId` and trimmed `beneficiaryName` are
non-empty, synthesizes `"S" + rowIndex` for a blank serial, and parses
capacity as a float whose `|| 1` fallback fires on blank, parse failure, or
a parsed value of 0; the claim's round-trip row loads exactly as stated.
The `AllGraph.jsx` loader, however, only requires a non-empty trimmed
`inverterId` (no beneficiary requirement, no capacity column, bare-index
serial fallback). -/
theorem c5_amended :
    (∀ (rows : List (List String)) (rec : Inverter),
      rec ∈ cronLoadInverters rows →
      rec.inverterId ≠ "" ∧ rec.beneficiaryName ≠ "") ∧
    cronLoadInverters [["S.No", "Inverter ID", "Beneficiary", "Capacity"],
        ["49", "I2492100573", "RAHUL SHARMA", "3"]] =
      [{ serialNo := "49", inverterId := "I2492100573",
         beneficiaryName := "RAHUL SHARMA", capacity := 3 }] ∧
    (∀ (rows : List (List String)) (rec : AGInverter),
      rec ∈ allGraphLoadInverters rows → rec.inverterId ≠ "") := by
  refine ⟨?_, ?_, ?_⟩
  · intro rows rec h
    simp only [cronLoadInverters, List.mem_filterMap] at h
    obtain ⟨p, hp, heq⟩ := h
    split at heq
    · exact Option.noConfusion heq
    · simp only [cronProcessRow] at heq
      split at heq
      · rename_i hc
        have hrec := Option.some.inj heq
        subst hrec
        exact hc
      · exact Option.noConfusion heq
  · have t49 : jsTrim "49" = "49" := by decide
    have tI : jsTrim "I2492100573" = "I2492100573" := by decide
    have tR : jsTrim "RAHUL SHARMA" = "RAHUL SHARMA" := by decide
    have t3 : jsTrim "3" = "3" := by decide
    have hpf : jsParseFloat "3" = some ((3 : ℕ) : ℚ) := rfl
    have hp : parseFloatOrOne "3" = 3 := by
      simp only [parseFloatOrOne, hpf]
      norm_num
    have hrow : cronProcessRow 1 ["49", "I2492100573", "RAHUL SHARMA", "3"] =
        some { serialNo := "49", inverterId := "I2492100573",
               beneficiaryName := "RAHUL SHARMA", capacity := 3 } := by
      simp only [cronProcessRow, List.getD_cons_zero, List.getD_cons_succ,
        t49, tI, tR, t3, hp]
      rw [if_pos (by constructor <;> decide)]
      rw [if_neg (by decide)]
    simp [cronLoadInverters, List.enum, List.enumFrom, List.filterMap_cons, hrow]
  · intro rows rec h
    simp only [allGraphLoadInverters, List.mem_filterMap] at h
    obtain ⟨p, hp, heq⟩ := h
    split at heq
    · exact Option.noConfusion heq
    · simp only [allGraphProcessRow] at heq
      split at heq
      · rename_i hc
        have hrec := Option.some.inj heq
        subst hrec
        exact hc
      · exact Option.noConfusion heq

/-- C5, witness: the claim's round-trip record is produced by the cron
loader, and (as the loader guarantees) carries non-empty identifiers. -/
theorem c5_witness :
    ({ serialNo := "49", inverterId := "I2492100573",
       beneficiaryName := "RAHUL SHARMA", capacity := 3 } : Inverter).inverterId ≠ "" ∧
    ({ serialNo := "49", inverterId := "I2492100573",
       beneficiaryName := "RAHUL SHARMA", capacity := 3 } : Inverter).beneficiaryName ≠ "" := by
  have hmem : ({ serialNo := "49", inverterId := "I2492100573",
                 beneficiaryName := "RAHUL SHARMA", capacity := 3 } : Inverter) ∈
      cronLoadInverters [["S.No", "Inverter ID", "Beneficiary", "Capacity"],
        ["49", "I2492100573", "RAHUL SHARMA", "3"]] := by
    rw [c5_amended.2.1]
    exact List.mem_singleton.mpr rfl
  exact c5_amended.1 _ _ hmem

/-- C6.  `handleSyncCSVFormat` excludes every record carrying an `error`
from the posted payload (each payload row comes from an error-free record),
and when all records carry errors no HTTP POST is issued: the attempt fails
with the "nothing to sync" error
(`"No valid data to sync (all records have errors)"`) with an empty payload. -/
theorem c6_nothing_to_sync :
    ∀ (performanceData : List UIRecord) (fallbackDays : ℚ),
      ((∀ r ∈ performanceData, r.error ≠ none) →
        (handleSyncCSVFormat performanceData fallbackDays).posted = false ∧
        (handleSyncCSVFormat performanceData fallbackDays).payload = [] ∧
        (performanceData ≠ [] →
          (handleSyncCSVFormat performanceData fallbackDays).failMsg =
            some "No valid data to sync (all records have errors)")) ∧
      (∀ row ∈ (handleSyncCSVFormat performanceData fallbackDays).payload,
        ∃ r ∈ performanceData, r.error = none ∧ row = toSyncRow fallbackDays r) := by
  intro performanceData fallbackDays
  constructor
  · intro hall
    have hfilter : performanceData.filter (fun item => item.error = none) = [] := by
      rw [List.filter_eq_nil_iff]
      intro a ha
      simpa using hall a ha
    by_cases hempty : performanceData.isEmpty
    · have hnil : performanceData = [] := List.isEmpty_iff.mp hempty
      subst hnil
      simp [handleSyncCSVFormat]
    · simp [handleSyncCSVFormat, hempty, hfilter]
  · intro row hrow
    by_cases hempty : performanceData.isEmpty
    · have hpl : (handleSyncCSVFormat performanceData fallbackDays).payload = [] := by
        simp [handleSyncCSVFormat, hempty]
      rw [hpl] at hrow
      exact absurd hrow (List.not_mem_nil row)
    · by_cases hfil : ((performanceData.filter (fun item => item.error = none)).map
          (toSyncRow fallbackDays)).isEmpty
      · have hpl : (handleSyncCSVFormat performanceData fallbackDays).payload = [] := by
          simp [handleSyncCSVFormat, hempty, hfil]
        rw [hpl] at hrow
        exact absurd hrow (List.not_mem_nil row)
      · have hpl : (handleSyncCSVFormat performanceData fallbackDays).payload =
            (performanceData.filter (fun item => item.error = none)).map
              (toSyncRow fallbackDays) := by
          simp [handleSyncCSVFormat, hempty, hfil]
        rw [hpl] at hrow
        simp only [List.mem_map, List.mem_filter] at hrow
        obtain ⟨r, ⟨hrmem, herr⟩, hrw⟩ := hrow
        exact ⟨r, hrmem, by simpa using herr, hrw.symm⟩

/-- C6, witness: a two-record batch where both records carry errors issues
no POST and fails with the nothing-to-sync message, while a mixed batch only
posts rows originating from error-free records. -/
theorem c6_witness :
    (handleSyncCSVFormat
      [{ id := 1, serialNo := "1", inverterId := "I1", beneficiaryName := "A",
         capacity := 3, totalKwh := 0, avgDailyKwh := 0, specYield := 0,
         daysInRange := 8, lifetimeGeneration := 0, error := some "boom" },
       { id := 2, serialNo := "2", inverterId := "I2", beneficiaryName := "B",
         capacity := 3, totalKwh := 0, avgDailyKwh := 0, specYield := 0,
         daysInRange := 8, lifetimeGeneration := 0,
         error := some "No PS Key found" }] 8).posted = false ∧
    (handleSyncCSVFormat
      [{ id := 1, serialNo := "1", inverterId := "I1", beneficiaryName := "A",
         capacity := 3, totalKwh := 0, avgDailyKwh := 0, specYield := 0,
         daysInRange := 8, lifetimeGeneration := 0, error := some "boom" },
       { id := 2, serialNo := "2", inverterId := "I2", beneficiaryName := "B",
         capacity := 3, totalKwh := 0, avgDailyKwh := 0, specYield := 0,
         daysInRange := 8, lifetimeGeneration := 0,
         error := some "No PS Key found" }] 8).failMsg =
      some "No valid data to sync (all records have errors)" := by
  have h := (c6_nothing_to_sync
    [{ id := 1, serialNo := "1", inverterId := "I1", beneficiaryName := "A",
       capacity := 3, totalKwh := 0, avgDailyKwh := 0, specYield := 0,
       daysInRange := 8, lifetimeGeneration := 0, error := some "boom" },
     { id := 2, serialNo := "2", inverterId := "I2", beneficiaryName := "B",
       capacity := 3, totalKwh := 0, avgDailyKwh := 0, specYield := 0,
       daysInRange := 8, lifetimeGeneration := 0,
       error := some "No PS Key found" }] 8).1
    (by intro r hr; fin_cases hr <;> simp)
  exact ⟨h.1, h.2.2 (by simp)⟩

/-- C7, counterexample.  The claim says an inverter whose device-key
response resolves no `ps_key` always yields a PerformanceRecord with
`error: "No PS Key found"`.  The cron handler does not: on a response whose
`device_point_list` has no truthy `ps_key` (here a null entry and an
empty-string key) it returns `null` and `filter(Boolean)` silently drops the
inverter from the batch results. -/
theorem c7_counterexample :
    cronDeviceStep ⟨"49", "I1", "B", 3⟩
      ⟨"1", none, some [none, some ⟨some ""⟩]⟩ [] "20240101" "20240108" = none ∧
    cronCollectBatch [cronDeviceStep ⟨"49", "I1", "B", 3⟩
      ⟨"1", none, some [none, some ⟨some ""⟩]⟩ [] "20240101" "20240108"] = [] := by
  constructor
  · rfl
  · rfl

/-- C7, amended.  In the weekly-report component, a device response with
`result_code "1"` and a `device_point_list` but no resolvable `ps_key`
yields the `'No PS Key found'` record with all metrics zeroed (no exception,
no dropped inverter); in the cron handler the same situation returns `null`,
and the inverter is silently dropped from the collected batch. -/
theorem c7_amended :
    (∀ (inverter : Inverter) (resp : DeviceResponse) (daysInRange : ℚ),
      resp.result_code = "1" → resp.device_point_list ≠ none →
      findPsKey resp = none →
      uiDeviceStep inverter resp daysInRange =
        .answer (uiNoKeyRecord inverter daysInRange) ∧
      (uiNoKeyRecord inverter daysInRange).error = some "No PS Key found" ∧
      (uiNoKeyRecord inverter daysInRange).totalKwh = 0 ∧
      (uiNoKeyRecord inverter daysInRange).avgDailyKwh = 0 ∧
      (uiNoKeyRecord inverter daysInRange).specYield = 0 ∧
      (uiNoKeyRecord inverter daysInRange).lifetimeGeneration = 0) ∧
    (∀ (inverter : Inverter) (resp : DeviceResponse) (sortedData : List RawPoint)
      (s e : String), findPsKey resp = none →
      cronDeviceStep inverter resp sortedData s e = none) := by
  constructor
  · intro inverter resp daysInRange hcode hlist hkey
    refine ⟨?_, rfl, rfl, rfl, rfl, rfl⟩
    simp [uiDeviceStep, hcode, hlist, hkey]
  · intro inverter resp sortedData s e hkey
    simp [cronDeviceStep, hkey]

/-- C7, witness: on a concrete keyless response the UI path answers with the
`'No PS Key found'` record and the cron path produces `none`. -/
theorem c7_witness :
    uiDeviceStep ⟨"49", "I1", "B", 3⟩ ⟨"1", none, some [none, some ⟨some ""⟩]⟩ 8 =
      .answer (uiNoKeyRecord ⟨"49", "I1", "B", 3⟩ 8) ∧
    cronDeviceStep ⟨"49", "I1", "B", 3⟩ ⟨"1", none, some [none, some ⟨some ""⟩]⟩
      [] "20240101" "20240108" = none := by
  constructor
  · exact (c7_amended.1 ⟨"49", "I1", "B", 3⟩ ⟨"1", none, some [none, some ⟨some ""⟩]⟩ 8
      rfl (by simp) rfl).1
  · exact c7_amended.2 ⟨"49", "I1", "B", 3⟩ ⟨"1", none, some [none, some ⟨some ""⟩]⟩
      [] "20240101" "20240108" rfl

/-- C8, code bug.  In the weekly-report `handleAutoLogin` catch block the
retry condition is `retryCount < 2 && err.message.includes('network') ||
err.message.includes('Failed to fetch')`: since `&&` binds tighter than
`||`, a `'Failed to fetch'` failure is retried at **every** retry count, so
the total number of login attempts is unbounded — contradicting the
"total attempts ≤ 3" contract that the code's own retry toast
(`(retryCount + 1)/3`) and the bounded busy-server branch express. -/
theorem c8_unbounded_retry :
    (∀ retryCount : Nat, wprNetRetry retryCount "Failed to fetch" = true) ∧
    (∀ m : String, busyRetry (some m) 2 = false) ∧
    wprRetryToastCount 2 = (3, 3) := by
  refine ⟨?_, ?_, rfl⟩
  · intro retryCount
    have h : jsIncludes "Failed to fetch" "Failed to fetch" = true := by decide
    simp [wprNetRetry, h]
  · intro m
    simp [busyRetry]

/-- A summary is absent exactly when no record of `filteredData` has
positive `totalKwh`. -/
theorem summaryStats_eq_none_iff (fd : List UIRecord) :
    summaryStats fd = none ↔
      fd.filter (fun item => 0 < item.totalKwh) = [] := by
  by_cases hfe : fd.isEmpty
  · have : fd = [] := List.isEmpty_iff.mp hfe
    subst this
    simp [summaryStats]
  · by_cases hve : (fd.filter (fun item => 0 < item.totalKwh)).isEmpty
    · simp [summaryStats, hfe, hve, List.isEmpty_iff.mp hve]
    · simp only [summaryStats, hfe, Bool.false_eq_true, if_false, hve]
      constructor
      · intro h
        exact absurd h (by simp)
      · intro h
        exact absurd h (by simpa using hve)

/-- The produced summary's `totalKwh` is the rounded sum of `totalKwh` over
the qualifying records of `filteredData`, and `totalInverters` counts them. -/
theorem summaryStats_some_fields (fd : List UIRecord) (s : SummaryStats)
    (hs : summaryStats fd = some s) :
    s.totalKwh = round2 (((fd.filter (fun item => 0 < item.totalKwh)).map
      UIRecord.totalKwh).sum) ∧
    s.totalInverters = (fd.filter (fun item => 0 < item.totalKwh)).length := by
  by_cases hfe : fd.isEmpty
  · simp [summaryStats, hfe] at hs
  · by_cases hve : (fd.filter (fun item => 0 < item.totalKwh)).isEmpty
    · simp [summaryStats, hfe, hve] at hs
    · simp only [summaryStats, hfe, Bool.false_eq_true, if_false, hve] at hs
      have hrec := Option.some.inj hs
      subst hrec
      constructor
      · simp only
        rw [foldl_add_map_sum, zero_add]
      · rfl

/-- In the weekly report UI, the search in `filteredData` is bypassed for an
empty search term, leaving a sorted copy of the error-free records. -/
theorem filteredData_no_search (performanceData : List UIRecord)
    (sortKey : UIRecord → ℚ) (sortOrderDesc : Bool) :
    filteredData performanceData "" sortKey sortOrderDesc =
      (performanceData.filter (fun item => item.error = none)).insertionSort
        (fun a b => if sortOrderDesc then sortKey b ≤ sortKey a
                    else sortKey a ≤ sortKey b) := by
  simp [filteredData]

/-- C9.  The summary statistics are computed exactly over the records
without an `error` and with `totalKwh > 0`: `summaryStats ∘ filteredData`
(with the default empty search term) is `none` precisely when no record
qualifies, and otherwise reports the rounded sum of the qualifying records'
`totalKwh` and their count. -/
theorem c9_summary_stats :
    ∀ (performanceData : List UIRecord) (sortKey : UIRecord → ℚ)
      (sortOrderDesc : Bool),
      (summaryStats (filteredData performanceData "" sortKey sortOrderDesc) = none ↔
        performanceData.filter (fun r => r.error = none ∧ 0 < r.totalKwh) = []) ∧
      (∀ s, summaryStats (filteredData performanceData "" sortKey sortOrderDesc) = some s →
        s.totalKwh = round2 (((performanceData.filter
            (fun r => r.error = none ∧ 0 < r.totalKwh)).map UIRecord.totalKwh).sum) ∧
        s.totalInverters = (performanceData.filter
            (fun r => r.error = none ∧ 0 < r.totalKwh)).length) := by
  intro performanceData sortKey sortOrderDesc
  have hperm : (filteredData performanceData "" sortKey sortOrderDesc).Perm
      (performanceData.filter (fun item => item.error = none)) := by
    rw [filteredData_no_search]
    exact List.perm_insertionSort _ _
  have hff : (performanceData.filter (fun item => item.error = none)).filter
      (fun item => 0 < item.totalKwh) =
      performanceData.filter (fun r => r.error = none ∧ 0 < r.totalKwh) := by
    rw [List.filter_filter]
    apply List.filter_congr
    intro a _
    by_cases h1 : a.error = none <;> by_cases h2 : 0 < a.totalKwh <;> simp [h1, h2]
  have hvperm : ((filteredData performanceData "" sortKey sortOrderDesc).filter
      (fun item => 0 < item.totalKwh)).Perm
      (performanceData.filter (fun r => r.error = none ∧ 0 < r.totalKwh)) := by
    have h1 := hperm.filter (fun item => 0 < item.totalKwh)
    rw [hff] at h1
    exact h1
  constructor
  · rw [summaryStats_eq_none_iff]
    constructor
    · intro h
      have := hvperm.length_eq
      rw [h] at this
      exact List.length_eq_zero.mp this.symm
    · intro h
      have := hvperm.length_eq
      rw [h] at this
      exact List.length_eq_zero.mp this
  · intro s hs
    obtain ⟨h1, h2⟩ := summaryStats_some_fields _ s hs
    refine ⟨?_, ?_⟩
    · rw [h1, (hvperm.map UIRecord.totalKwh).sum_eq]
    · rw [h2, hvperm.length_eq]

/-- C9, witness: with one errored record and one qualifying record the
summary exists and is computed over exactly the qualifying record. -/
theorem c9_witness :
    ({ totalKwh := 10, avgDailyKwh := 2, avgSpecYield := 1, totalCapacity := 3,
       totalInverters := 1,
       bestPerformer := some ⟨2, "2", "I2", "B", 3, 10, 2, 1, 8, 42, none⟩,
       worstPerformer := some ⟨2, "2", "I2", "B", 3, 10, 2, 1, 8, 42, none⟩ } :
        SummaryStats).totalKwh =
      round2 ((([⟨1, "1", "I1", "A", 3, 5, 1, 1, 8, 0, some "x"⟩,
        ⟨2, "2", "I2", "B", 3, 10, 2, 1, 8, 42, none⟩] : List UIRecord).filter
          (fun r => r.error = none ∧ 0 < r.totalKwh)).map UIRecord.totalKwh).sum ∧
    ({ totalKwh := 10, avgDailyKwh := 2, avgSpecYield := 1, totalCapacity := 3,
       totalInverters := 1,
       bestPerformer := some ⟨2, "2", "I2", "B", 3, 10, 2, 1, 8, 42, none⟩,
       worstPerformer := some ⟨2, "2", "I2", "B", 3, 10, 2, 1, 8, 42, none⟩ } :
        SummaryStats).totalInverters =
      (([⟨1, "1", "I1", "A", 3, 5, 1, 1, 8, 0, some "x"⟩,
        ⟨2, "2", "I2", "B", 3, 10, 2, 1, 8, 42, none⟩] : List UIRecord).filter
          (fun r => r.error = none ∧ 0 < r.totalKwh)).length := by
  have hsome : summaryStats (filteredData
      [⟨1, "1", "I1", "A", 3, 5, 1, 1, 8, 0, some "x"⟩,
       ⟨2, "2", "I2", "B", 3, 10, 2, 1, 8, 42, none⟩] ""
      (fun r => r.totalKwh) true) =
      some { totalKwh := 10, avgDailyKwh := 2, avgSpecYield := 1,
             totalCapacity := 3, totalInverters := 1,
             bestPerformer := some ⟨2, "2", "I2", "B", 3, 10, 2, 1, 8, 42, none⟩,
             worstPerformer := some ⟨2, "2", "I2", "B", 3, 10, 2, 1, 8, 42, none⟩ } := by
    rw [filteredData_no_search]
    norm_num [summaryStats, List.insertionSort, List.orderedInsert, List.filter,
      round2, round3]
  exact (c9_summary_stats
    [⟨1, "1", "I1", "A", 3, 5, 1, 1, 8, 0, some "x"⟩,
     ⟨2, "2", "I2", "B", 3, 10, 2, 1, 8, 42, none⟩]
    (fun r => r.totalKwh) true).2 _ hsome

/-- C10.  In the cron handler, `daysInRange` is the constant 8 for every
inverter — irrespective of the fetched series or the window strings — and the
stored `avgDailyKwh` is always (the rounded) `totalKwh / 8`. -/
theorem c10_days_in_range :
    ∀ (inverter : Inverter) (sortedData : List RawPoint) (s e : String),
      (cronPerformanceRecord inverter sortedData s e).daysInRange = 8 ∧
      (cronPerformanceRecord inverter sortedData s e).avgDailyKwh =
        round2 (totalKwhOf sortedData s e / 8) := by
  intro inverter sortedData s e
  exact ⟨rfl, rfl⟩
